import Mathlib

/-!
Verification of the Gemini proxy backend (FastAPI + GeminiClient).

This file gives a shallow embedding of the upstream call pipeline:
`GeminiClient.generate_response` / `GeminiClient._extract_reply`
(src/api/gemini_client.py) and the `ai_reply` handler
(src/api/handlers.py), together with a spec-modelled admission gate for
the slowapi rate limiter declared in src/api/main.py and
src/api/handlers.py.

JSON bodies are modelled by an inductive `JVal` mirroring the Python
values the code traverses; Python exceptions are modelled by `PyExc` and
fallible code returns `Except PyExc`.  The single outbound HTTP call is
abstracted by a `TransportOutcome` produced by a stub upstream function;
everything downstream of that call is translated line by line from the
source.
-/

/-- JSON values as traversed by the Python code: dicts, lists, strings,
integers, booleans and None. -/
inductive JVal where
  | null
  | bool (b : Bool)
  | num (n : Int)
  | str (s : String)
  | arr (elems : List JVal)
  | obj (fields : List (String × JVal))
deriving Repr

mutual

/-- Python repr of a JSON value (what f-string interpolation prints for
containers). -/
def JVal.pyRepr : JVal → String
  | .null => "None"
  | .bool true => "True"
  | .bool false => "False"
  | .num n => toString n
  | .str s => "\x27" ++ s ++ "\x27"
  | .arr xs => "[" ++ String.intercalate ", " (pyReprList xs) ++ "]"
  | .obj fs => "\x7b" ++ String.intercalate ", " (pyReprFields fs) ++ "\x7d"

/-- Helper for `JVal.pyRepr` on list elements. -/
def pyReprList : List JVal → List String
  | [] => []
  | x :: xs => x.pyRepr :: pyReprList xs

/-- Helper for `JVal.pyRepr` on dict fields. -/
def pyReprFields : List (String × JVal) → List String
  | [] => []
  | (k, v) :: fs => ("\x27" ++ k ++ "\x27: " ++ v.pyRepr) :: pyReprFields fs

end

/-- Python str() of a JSON value, as used by f-string interpolation. -/
def JVal.pyStr : JVal → String
  | .str s => s
  | v => v.pyRepr

/-- Python truthiness of a JSON value (`if not candidates`, `if not parts`,
`if not reply` in `_extract_reply`). -/
def JVal.truthy : JVal → Bool
  | .null => false
  | .bool b => b
  | .num n => n != 0
  | .str s => s != ""
  | .arr xs => !xs.isEmpty
  | .obj fs => !fs.isEmpty

/-- Python exceptions that can arise in the pipeline.  `gemini` is
`GeminiError(message, status_code)` and `geminiTimeout` its subclass
`GeminiTimeoutError` (src/api/gemini_client.py lines 16-24); the others
are the runtime / library exceptions the code can raise or catch. -/
inductive PyExc where
  | gemini (message : String) (status_code : Option Nat)
  | geminiTimeout (message : String) (status_code : Option Nat)
  | httpxTimeout
  | attributeError (message : String)
  | keyError (message : String)
  | indexError (message : String)
  | typeError (message : String)
  | jsonDecodeError (message : String)
  | validationError (message : String)
deriving Repr, DecidableEq

/-- Python str(e) for each modelled exception. -/
def PyExc.pyMessage : PyExc → String
  | .gemini m _ => m
  | .geminiTimeout m _ => m
  | .httpxTimeout => "timed out"
  | .attributeError m => m
  | .keyError m => m
  | .indexError m => m
  | .typeError m => m
  | .jsonDecodeError m => m
  | .validationError m => m

/-- Whether an exception is an instance of GeminiError (GeminiTimeoutError
subclasses GeminiError). -/
def PyExc.isGeminiClass : PyExc → Bool
  | .gemini _ _ => true
  | .geminiTimeout _ _ => true
  | _ => false

/-- Python `v.get(key, default)`: returns the stored value or the default
on a dict, and raises AttributeError on any non-dict receiver. -/
def pyGet (v : JVal) (key : String) (dflt : JVal) : Except PyExc JVal :=
  match v with
  | .obj fields => .ok ((fields.lookup key).getD dflt)
  | _ => .error (.attributeError "object has no attribute get")

/-- Python `v[0]`: first element of a list (IndexError when empty), first
character of a string, KeyError on a dict, TypeError otherwise. -/
def pyIndex0 : JVal → Except PyExc JVal
  | .arr [] => .error (.indexError "list index out of range")
  | .arr (x :: _) => .ok x
  | .obj _ => .error (.keyError "0")
  | .str "" => .error (.indexError "string index out of range")
  | .str s => .ok (.str (s.take 1))
  | .null => .error (.typeError "object is not subscriptable")
  | .bool _ => .error (.typeError "object is not subscriptable")
  | .num _ => .error (.typeError "object is not subscriptable")

/-- Python `text[:200]` (slicing by code points). -/
def pySlice200 (t : String) : String := ⟨t.data.take 200⟩

/-- Body of the try block of `GeminiClient._extract_reply`
(src/api/gemini_client.py lines 145-161). -/
def extractReplyTry (data : JVal) : Except PyExc JVal :=
  match pyGet data "candidates" (.arr []) with
  | .error e => .error e
  | .ok candidates =>
    if !candidates.truthy then .error (.gemini "No candidates in response" none)
    else
      match pyIndex0 candidates with
      | .error e => .error e
      | .ok cand0 =>
        match pyGet cand0 "content" (.obj []) with
        | .error e => .error e
        | .ok content =>
          match pyGet content "parts" (.arr []) with
          | .error e => .error e
          | .ok parts =>
            if !parts.truthy then .error (.gemini "No parts in response content" none)
            else
              match pyIndex0 parts with
              | .error e => .error e
              | .ok part0 =>
                match pyGet part0 "text" (.str "") with
                | .error e => .error e
                | .ok reply =>
                  if !reply.truthy then .error (.gemini "Empty reply from Gemini" none)
                  else .ok reply

/-- `GeminiClient._extract_reply` (src/api/gemini_client.py lines
132-164): the try body plus the `except (KeyError, IndexError,
TypeError)` clause re-raising as `GeminiError("Invalid response format:
...")`.  GeminiError raised inside the try, and AttributeError, pass
through unchanged. -/
def extract_reply (data : JVal) : Except PyExc JVal :=
  match extractReplyTry data with
  | .error (.keyError m) => .error (.gemini ("Invalid response format: " ++ m) none)
  | .error (.indexError m) => .error (.gemini ("Invalid response format: " ++ m) none)
  | .error (.typeError m) => .error (.gemini ("Invalid response format: " ++ m) none)
  | r => r

/-- Observable outcome of the single `client.post` transport call: an
httpx timeout, or an HTTP response carrying `response.status_code`, the
result of `response.json()` (error = the decode exception message) and
the raw `response.text`. -/
inductive TransportOutcome where
  | timeout
  | response (status_code : Nat) (jsonBody : Except String JVal) (text : String)

/-- Computation of `error_detail` for a non-success status
(src/api/gemini_client.py lines 96-101): the structured
`error.message` from the parsed body when available; the raw body
truncated to 200 characters when `response.json()` fails or when the
`.get` chain raises (bare except); the default "Unknown error" when the
body parses to a dict whose error dict lacks a message. -/
def errorDetail (jsonBody : Except String JVal) (text : String) : String :=
  match jsonBody with
  | .error _ => pySlice200 text
  | .ok (.obj fields) =>
    match (fields.lookup "error").getD (.obj []) with
    | .obj efields => (((efields.lookup "message")).getD (.str "Unknown error")).pyStr
    | _ => pySlice200 text
  | .ok _ => pySlice200 text

/-- Dictionary returned by `GeminiClient.generate_response` on success
(src/api/gemini_client.py lines 118-123). -/
structure GenResult where
  reply : JVal
  model : String
  prompt_tokens : JVal
  completion_tokens : JVal
deriving Repr

/-- Try block of `GeminiClient.generate_response`
(src/api/gemini_client.py lines 85-123): transport call, status check,
JSON decode, reply extraction and usage extraction.  The HTTP POST of
the payload built from (prompt, max_tokens) is abstracted as
`upstream prompt max_tokens`. -/
def generateTry (model prompt : String) (max_tokens : Int)
    (upstream : String → Int → TransportOutcome) : Except PyExc GenResult :=
  match upstream prompt max_tokens with
  | .timeout => .error .httpxTimeout
  | .response status_code jsonBody text =>
    if status_code ≠ 200 then
      .error (.gemini ("Gemini API error: " ++ errorDetail jsonBody text) (some status_code))
    else
      match jsonBody with
      | .error m => .error (.jsonDecodeError m)
      | .ok data =>
        match extract_reply data with
        | .error e => .error e
        | .ok reply =>
          match pyGet data "usageMetadata" (.obj []) with
          | .error e => .error e
          | .ok usage_metadata =>
            match pyGet usage_metadata "promptTokenCount" .null with
            | .error e => .error e
            | .ok prompt_tokens =>
              match pyGet usage_metadata "candidatesTokenCount" .null with
              | .error e => .error e
              | .ok completion_tokens =>
                .ok ⟨reply, model, prompt_tokens, completion_tokens⟩

/-- `GeminiClient.generate_response` (src/api/gemini_client.py lines
41-130): the try body with the except chain — `httpx.TimeoutException`
becomes `GeminiTimeoutError("Request to Gemini API timed out")`,
GeminiError is re-raised, and any other exception is wrapped as
`GeminiError("Unexpected error: " + str(e))`. -/
def generate_response (model prompt : String) (max_tokens : Int)
    (upstream : String → Int → TransportOutcome) : Except PyExc GenResult :=
  match generateTry model prompt max_tokens upstream with
  | .ok r => .ok r
  | .error .httpxTimeout => .error (.geminiTimeout "Request to Gemini API timed out" none)
  | .error (.gemini m s) => .error (.gemini m s)
  | .error (.geminiTimeout m s) => .error (.geminiTimeout m s)
  | .error e => .error (.gemini ("Unexpected error: " ++ e.pyMessage) none)

/-- Request model `AIRequest` of src/api/handlers.py lines 18-20 (after
pydantic validation and defaulting of max_tokens). -/
structure AIRequest where
  prompt : String
  max_tokens : Int
deriving Repr, DecidableEq

/-- Boundary validation enforced by pydantic on AIRequest: prompt length
1..10000 and max_tokens 1..4096 (src/api/handlers.py lines 19-20). -/
def AIRequest.valid (r : AIRequest) : Prop :=
  1 ≤ r.prompt.length ∧ r.prompt.length ≤ 10000 ∧ 1 ≤ r.max_tokens ∧ r.max_tokens ≤ 4096

instance (r : AIRequest) : Decidable r.valid := by
  unfold AIRequest.valid
  infer_instance

/-- Usage model `UsageInfo` of src/api/handlers.py lines 22-24. -/
structure UsageInfo where
  prompt_tokens : Option Int
  completion_tokens : Option Int
deriving Repr, DecidableEq

/-- Response model `AIResponse` of src/api/handlers.py lines 26-30. -/
structure AIResponse where
  id : String
  reply : String
  model : String
  usage : UsageInfo
deriving Repr, DecidableEq

/-- FastAPI HTTPException as raised by ai_reply. -/
structure HTTPException where
  status_code : Nat
  detail : String
deriving Repr, DecidableEq

/-- Validation applied by pydantic to the `Optional[int]` usage fields of
UsageInfo: None stays absent, an int is accepted, any other value is a
ValidationError. -/
def coerceOptInt : JVal → Except PyExc (Option Int)
  | .null => .ok none
  | .num n => .ok (some n)
  | _ => .error (.validationError "value is not a valid integer")

/-- Validation applied by pydantic to the mandatory `reply: str` field of
AIResponse. -/
def coerceStr : JVal → Except PyExc String
  | .str s => .ok s
  | _ => .error (.validationError "value is not a valid string")

/-- Try block of `ai_reply` (src/api/handlers.py lines 63-81): call
`generate_response` and build the AIResponse model from the result
dictionary, with `response_id` standing for the freshly generated
uuid4. -/
def aiReplyTry (model response_id : String) (req : AIRequest)
    (upstream : String → Int → TransportOutcome) : Except PyExc AIResponse :=
  match generate_response model req.prompt req.max_tokens upstream with
  | .error e => .error e
  | .ok result =>
    match coerceStr result.reply with
    | .error e => .error e
    | .ok reply =>
      match coerceOptInt result.prompt_tokens with
      | .error e => .error e
      | .ok pt =>
        match coerceOptInt result.completion_tokens with
        | .error e => .error e
        | .ok ct => .ok ⟨response_id, reply, result.model, ⟨pt, ct⟩⟩

/-- Status-code selection of src/api/handlers.py lines 89-97: base 502,
500 for upstream status 401, 503 for 429 (`hasattr(e, 'status_code')` is
always true for GeminiError, and a missing upstream status is None). -/
def geminiErrorStatus (status_code : Option Nat) : Nat :=
  if status_code = some 401 then 500
  else if status_code = some 429 then 503
  else 502

/-- `ai_reply` (src/api/handlers.py lines 50-109): the try body plus the
except chain — GeminiTimeoutError becomes 504 with a fixed detail,
GeminiError becomes the mapped status with detail
`"Gemini API error: " + str(e)`, and any other exception becomes a
generic 500 with the internal message suppressed. -/
def ai_reply (model response_id : String) (req : AIRequest)
    (upstream : String → Int → TransportOutcome) : Except HTTPException AIResponse :=
  match aiReplyTry model response_id req upstream with
  | .ok resp => .ok resp
  | .error (.geminiTimeout _ _) => .error ⟨504, "Request to Gemini AI timed out"⟩
  | .error (.gemini m s) => .error ⟨geminiErrorStatus s, "Gemini API error: " ++ m⟩
  | .error _ => .error ⟨500, "Internal server error"⟩

/-- Outward HTTP status of a handler outcome (FastAPI renders an ok
response model with status 200). -/
def outwardStatus : Except HTTPException AIResponse → Nat
  | .ok _ => 200
  | .error e => e.status_code

/-- Outward error detail of a handler outcome (empty for a success). -/
def outwardDetail : Except HTTPException AIResponse → String
  | .ok _ => ""
  | .error e => e.detail

/-- Modelled from the spec: per-caller rate state, a counter plus a
window start timestamp ("RateState: per-caller-identity counter + window
start timestamp").  The slowapi Limiter holding this state is a library,
not part of src/. -/
structure RateEntry where
  count : Nat
  windowStart : Nat
deriving Repr, DecidableEq

/-- Modelled from the spec: the rate-limit table keyed by caller network
identity. -/
def RateState := String → RateEntry

/-- Modelled from the spec: the admission check of RequestGate ("If the
caller's count for the current window would exceed the limit, reject
immediately ... Otherwise increment the counter and proceed"; the
counter is "reset when the counter's window elapses").  Returns the
admission decision and the updated table. -/
def rateAdmit (limit window now : Nat) (st : RateState) (caller : String) :
    Bool × RateState :=
  let e0 := st caller
  let e := if e0.windowStart + window ≤ now then ⟨0, now⟩ else e0
  if e.count + 1 > limit then
    (false, fun c => if c = caller then e else st c)
  else
    (true, fun c => if c = caller then ⟨e.count + 1, e.windowStart⟩ else st c)

/-- Outcome of one gated request: the outward response, how many times
the upstream client was invoked, and the rate table afterwards. -/
structure HandleOutcome where
  response : Except HTTPException AIResponse
  upstreamCalls : Nat
  state : RateState

/-- Modelled from the spec: `RequestGate.handle` — the slowapi admission
gate declared on ai_reply (src/api/handlers.py line 49, src/api/main.py
lines 18-29) followed, on admission, by exactly one invocation of the
pipeline; on rejection a rate-limit-exceeded outward error is returned
and the upstream client is not invoked. -/
def handle (limit window now : Nat) (st : RateState) (caller : String)
    (model response_id : String) (req : AIRequest)
    (upstream : String → Int → TransportOutcome) : HandleOutcome :=
  let adm := rateAdmit limit window now st caller
  if adm.1 then ⟨ai_reply model response_id req upstream, 1, adm.2⟩
  else ⟨.error ⟨429, "Rate limit exceeded"⟩, 0, adm.2⟩

/-- Conversion between an optional token count and the JSON value the
usage dictionary holds for it (None when absent). -/
def jvalOfOptInt : Option Int → JVal
  | none => .null
  | some n => .num n

/-- Success-status body whose candidates field is absent or Python-falsy
(the "no candidates" validation stage). -/
def NoCandidatesBody (data : JVal) : Prop :=
  ∃ fs, data = .obj fs ∧ ((fs.lookup "candidates").getD (.arr [])).truthy = false

/-- Success-status body whose first candidate's content has an absent or
Python-falsy parts field (the "no parts" validation stage). -/
def NoPartsBody (data : JVal) : Prop :=
  ∃ fs c0fs contentFs rest, data = .obj fs
    ∧ fs.lookup "candidates" = some (.arr (.obj c0fs :: rest))
    ∧ (c0fs.lookup "content").getD (.obj []) = .obj contentFs
    ∧ ((contentFs.lookup "parts").getD (.arr [])).truthy = false

/-- Success-status body whose first part has an absent or Python-falsy
text field (the "empty text" validation stage). -/
def EmptyTextBody (data : JVal) : Prop :=
  ∃ fs c0fs contentFs p0fs restC restP, data = .obj fs
    ∧ fs.lookup "candidates" = some (.arr (.obj c0fs :: restC))
    ∧ (c0fs.lookup "content").getD (.obj []) = .obj contentFs
    ∧ contentFs.lookup "parts" = some (.arr (.obj p0fs :: restP))
    ∧ ((p0fs.lookup "text").getD (.str "")).truthy = false

/-- Every ok result of the extraction try block is a Python-truthy value:
the `if not reply` guard rules out falsy replies. -/
theorem extractReplyTry_ok_truthy (data v : JVal)
    (h : extractReplyTry data = .ok v) : v.truthy = true := by
  unfold extractReplyTry at h
  repeat' split at h
  all_goals simp_all

/-- The except clause of `_extract_reply` only remaps errors, so an ok
result comes unchanged from the try block. -/
theorem extract_reply_ok (data v : JVal)
    (h : extract_reply data = .ok v) : extractReplyTry data = .ok v := by
  unfold extract_reply at h
  repeat' split at h
  all_goals simp_all

/-- Combination of the two previous lemmas. -/
theorem extract_reply_ok_truthy (data v : JVal)
    (h : extract_reply data = .ok v) : v.truthy = true :=
  extractReplyTry_ok_truthy data v (extract_reply_ok data v h)

/-- A non-success transport status always yields the GeminiError built
from the parsed-or-truncated error detail, with the upstream status
preserved verbatim (src/api/gemini_client.py lines 95-106). -/
theorem generateTry_nonsuccess (model prompt : String) (mt : Int)
    (s : Nat) (hs : s ≠ 200) (j : Except String JVal) (t : String) :
    generateTry model prompt mt (fun _ _ => .response s j t)
      = .error (.gemini ("Gemini API error: " ++ errorDetail j t) (some s)) := by
  unfold generateTry
  simp [hs]

/-- The except chain of `generate_response` re-raises GeminiError
unchanged, so the non-success classification survives it. -/
theorem generate_response_nonsuccess (model prompt : String) (mt : Int)
    (s : Nat) (hs : s ≠ 200) (j : Except String JVal) (t : String) :
    generate_response model prompt mt (fun _ _ => .response s j t)
      = .error (.gemini ("Gemini API error: " ++ errorDetail j t) (some s)) := by
  unfold generate_response
  rw [generateTry_nonsuccess model prompt mt s hs j t]

/-- An ok result of `generate_response` comes unchanged from the try
block. -/
theorem generate_response_ok (model prompt : String) (mt : Int)
    (u : String → Int → TransportOutcome) (r : GenResult)
    (h : generate_response model prompt mt u = .ok r) :
    generateTry model prompt mt u = .ok r := by
  unfold generate_response at h
  repeat' split at h
  all_goals simp_all

/-- The reply field of every successful pipeline result is Python-truthy,
because it was produced by `_extract_reply`. -/
theorem generate_response_ok_reply_truthy (model prompt : String) (mt : Int)
    (u : String → Int → TransportOutcome) (r : GenResult)
    (h : generate_response model prompt mt u = .ok r) : r.reply.truthy = true := by
  have h2 := generate_response_ok model prompt mt u r h
  unfold generateTry at h2
  repeat' split at h2
  all_goals first
    | exact Except.noConfusion h2
    | (injection h2 with h3; subst h3;
       exact extract_reply_ok_truthy _ _ (by assumption))

/-- Every error of `generate_response` is an instance of GeminiError:
the except chain wraps anything else (src/api/gemini_client.py lines
125-130). -/
theorem generate_response_error_class (model prompt : String) (mt : Int)
    (u : String → Int → TransportOutcome) (e : PyExc)
    (h : generate_response model prompt mt u = .error e) :
    e.isGeminiClass = true := by
  unfold generate_response at h
  repeat' split at h
  all_goals first
    | exact Except.noConfusion h
    | (injection h with h3; subst h3; rfl)

/-- C1: the claim requires that for an upstream 401 the outward status is
the generic 500 and the outward message contains neither "401" nor any
authentication detail from the upstream body.  The code satisfies the
status half but violates the message half: at a stubbed 401 whose body
carries the upstream auth message "API key not valid", the outward
detail contains that auth message verbatim, because ai_reply puts
str(e) into the HTTPException detail (src/api/handlers.py line 101). -/
theorem c1_auth_detail_leaked :
    ai_reply "gemini-2.5-flash" "rid" ⟨"Hello", 100⟩
      (fun _ _ => .response 401
        (.ok (.obj [("error", .obj [("message", .str "API key not valid")])])) "")
      = .error ⟨500, "Gemini API error: Gemini API error: API key not valid"⟩
    ∧ ("API key not valid").data <:+:
        ("Gemini API error: Gemini API error: API key not valid").data :=
  ⟨rfl, by decide⟩

/-- C2 (amended): for every UpstreamRejected failure carrying upstream
status s, the outward status is Internal Server Error (500) when s is
401, Service Unavailable (503) when s is 429, and Bad Gateway (502) for
every other non-success s — in particular 403 maps to 502, not to 500 as
the original claim stated. -/
theorem c2_outward_status_mapping (model rid : String) (req : AIRequest)
    (s : Nat) (hs : s ≠ 200) (j : Except String JVal) (t : String) :
    outwardStatus (ai_reply model rid req (fun _ _ => .response s j t)) =
      if s = 401 then 500 else if s = 429 then 503 else 502 := by
  have hg := generate_response_nonsuccess model req.prompt req.max_tokens s hs j t
  unfold ai_reply aiReplyTry
  rw [hg]
  simp [outwardStatus, geminiErrorStatus]

/-- C2 counterexample: at upstream status 403 the outward status is 502,
not the 500 required by the claim (the code checks only 401, src/api/
handlers.py lines 92-97). -/
theorem c2_counterexample_403 :
    outwardStatus (ai_reply "m" "rid" ⟨"Hello", 100⟩
      (fun _ _ => .response 403
        (.ok (.obj [("error", .obj [("message", .str "forbidden")])])) ""))
      = 502 ∧ (502 : Nat) ≠ 500 :=
  ⟨rfl, by decide⟩

/-- Witness for C2 at upstream status 429. -/
theorem c2_witness :
    (429 : Nat) ≠ 200
    ∧ outwardStatus (ai_reply "m" "rid" ⟨"Hello", 100⟩
        (fun _ _ => .response 429 (.error "too many requests") "slow down"))
      = if (429 : Nat) = 401 then 500 else if (429 : Nat) = 429 then 503 else 502 :=
  ⟨by decide, c2_outward_status_mapping "m" "rid" ⟨"Hello", 100⟩ 429 (by decide)
    (.error "too many requests") "slow down"⟩

/-- C3 (amended): every failure during generate that is neither a
timeout, an upstream non-success status, nor a recognised
response-validation failure is wrapped as GeminiError("Unexpected
error: " + str(e)) with no upstream status, and the handler maps it to
Bad Gateway (502) with the wrapped message included in the outward
detail — not to 500 with the message suppressed as the original claim
stated (the handler's generic 500 branch is reached only by exceptions
that are not GeminiError). -/
theorem c3_unexpected_wrapped (model rid : String) (req : AIRequest)
    (upstream : String → Int → TransportOutcome) (e : PyExc)
    (htry : generateTry model req.prompt req.max_tokens upstream = .error e)
    (hclass : e.isGeminiClass = false) (htimeout : e ≠ .httpxTimeout) :
    generate_response model req.prompt req.max_tokens upstream
      = .error (.gemini ("Unexpected error: " ++ e.pyMessage) none)
    ∧ ai_reply model rid req upstream
      = .error ⟨502, "Gemini API error: " ++ ("Unexpected error: " ++ e.pyMessage)⟩ := by
  have hg : generate_response model req.prompt req.max_tokens upstream
      = .error (.gemini ("Unexpected error: " ++ e.pyMessage) none) := by
    unfold generate_response
    rw [htry]
    cases e <;> simp_all [PyExc.isGeminiClass, PyExc.pyMessage]
  refine ⟨hg, ?_⟩
  unfold ai_reply aiReplyTry
  rw [hg]
  rfl

/-- C3 counterexample: a success-status response whose body fails JSON
decoding is an unclassified failure; the claim requires outward 500 with
the message suppressed, but the code produces 502 with the wrapped
message in the detail. -/
theorem c3_counterexample_502 :
    ai_reply "m" "rid" ⟨"Hello", 100⟩
      (fun _ _ => .response 200 (.error "Expecting value: line 1 column 1") "not json")
      = .error ⟨502, "Gemini API error: Unexpected error: Expecting value: line 1 column 1"⟩
    ∧ (502 : Nat) ≠ 500 :=
  ⟨rfl, by decide⟩

/-- Witness for C3 at a JSON-decode failure on a success status. -/
theorem c3_witness :
    generateTry "m" "Hello" 100 (fun _ _ => .response 200 (.error "boom") "oops")
      = .error (.jsonDecodeError "boom")
    ∧ (PyExc.jsonDecodeError "boom").isGeminiClass = false
    ∧ PyExc.jsonDecodeError "boom" ≠ .httpxTimeout
    ∧ (generate_response "m" "Hello" 100 (fun _ _ => .response 200 (.error "boom") "oops")
        = .error (.gemini ("Unexpected error: " ++ (PyExc.jsonDecodeError "boom").pyMessage) none)
      ∧ ai_reply "m" "rid" ⟨"Hello", 100⟩ (fun _ _ => .response 200 (.error "boom") "oops")
        = .error ⟨502, "Gemini API error: " ++ ("Unexpected error: " ++ (PyExc.jsonDecodeError "boom").pyMessage)⟩) :=
  ⟨rfl, rfl, by decide,
    c3_unexpected_wrapped "m" "rid" ⟨"Hello", 100⟩ _ _ rfl rfl (by decide)⟩

/-- C5: a transport call that exceeds the timeout budget makes generate
fail with exactly the Timeout classification (GeminiTimeoutError,
src/api/gemini_client.py lines 125-126) and no other variant, and the
handler maps it to Gateway Timeout 504 (src/api/handlers.py lines
83-87). -/
theorem c5_timeout_maps_504 (model rid : String) (req : AIRequest) :
    generate_response model req.prompt req.max_tokens (fun _ _ => .timeout)
      = .error (.geminiTimeout "Request to Gemini API timed out" none)
    ∧ ai_reply model rid req (fun _ _ => .timeout)
      = .error ⟨504, "Request to Gemini AI timed out"⟩ :=
  ⟨rfl, rfl⟩

/-- A non-empty JSON array is Python-truthy. -/
theorem JVal.truthy_arr_cons (x : JVal) (xs : List JVal) :
    (JVal.arr (x :: xs)).truthy = true := by
  simp [JVal.truthy]

/-- C4: for a success-status upstream body, absence of candidates,
absence of parts in the first candidate's content, and an empty
extracted text each make generate fail with a GeminiError whose reason
identifies the failing stage (no candidates / no parts / empty text) and
no upstream status, and the outward status for each is Bad Gateway 502. -/
theorem c4_malformed_response (model rid : String) (req : AIRequest)
    (text : String) (data : JVal) :
    (NoCandidatesBody data →
      generate_response model req.prompt req.max_tokens
          (fun _ _ => .response 200 (.ok data) text)
        = .error (.gemini "No candidates in response" none)
      ∧ outwardStatus (ai_reply model rid req
          (fun _ _ => .response 200 (.ok data) text)) = 502)
    ∧ (NoPartsBody data →
      generate_response model req.prompt req.max_tokens
          (fun _ _ => .response 200 (.ok data) text)
        = .error (.gemini "No parts in response content" none)
      ∧ outwardStatus (ai_reply model rid req
          (fun _ _ => .response 200 (.ok data) text)) = 502)
    ∧ (EmptyTextBody data →
      generate_response model req.prompt req.max_tokens
          (fun _ _ => .response 200 (.ok data) text)
        = .error (.gemini "Empty reply from Gemini" none)
      ∧ outwardStatus (ai_reply model rid req
          (fun _ _ => .response 200 (.ok data) text)) = 502) := by
  refine ⟨?_, ?_, ?_⟩
  · rintro ⟨fs, rfl, hfal⟩
    have h1 : extract_reply (.obj fs) = .error (.gemini "No candidates in response" none) := by
      unfold extract_reply extractReplyTry pyGet
      simp [hfal]
    have h3 : generate_response model req.prompt req.max_tokens
        (fun _ _ => .response 200 (.ok (.obj fs)) text)
        = .error (.gemini "No candidates in response" none) := by
      unfold generate_response generateTry
      simp [h1]
    refine ⟨h3, ?_⟩
    unfold ai_reply aiReplyTry
    rw [h3]
    rfl
  · rintro ⟨fs, c0fs, contentFs, rest, rfl, hcand, hcontent, hfal⟩
    have h1 : extract_reply (.obj fs) = .error (.gemini "No parts in response content" none) := by
      unfold extract_reply extractReplyTry pyGet pyIndex0
      simp [hcand, hcontent, hfal, JVal.truthy_arr_cons]
    have h3 : generate_response model req.prompt req.max_tokens
        (fun _ _ => .response 200 (.ok (.obj fs)) text)
        = .error (.gemini "No parts in response content" none) := by
      unfold generate_response generateTry
      simp [h1]
    refine ⟨h3, ?_⟩
    unfold ai_reply aiReplyTry
    rw [h3]
    rfl
  · rintro ⟨fs, c0fs, contentFs, p0fs, restC, restP, rfl, hcand, hcontent, hparts, hfal⟩
    have h1 : extract_reply (.obj fs) = .error (.gemini "Empty reply from Gemini" none) := by
      unfold extract_reply extractReplyTry pyGet pyIndex0
      simp [hcand, hcontent, hparts, hfal, JVal.truthy_arr_cons]
    have h3 : generate_response model req.prompt req.max_tokens
        (fun _ _ => .response 200 (.ok (.obj fs)) text)
        = .error (.gemini "Empty reply from Gemini" none) := by
      unfold generate_response generateTry
      simp [h1]
    refine ⟨h3, ?_⟩
    unfold ai_reply aiReplyTry
    rw [h3]
    rfl

/-- Witness for C4 on the three concrete malformed bodies. -/
theorem c4_witness :
    (NoCandidatesBody (.obj [("candidates", .arr [])])
      ∧ (generate_response "m" "Hello" 100
          (fun _ _ => .response 200 (.ok (.obj [("candidates", .arr [])])) "")
          = .error (.gemini "No candidates in response" none)
        ∧ outwardStatus (ai_reply "m" "rid" ⟨"Hello", 100⟩
            (fun _ _ => .response 200 (.ok (.obj [("candidates", .arr [])])) "")) = 502))
    ∧ (NoPartsBody (.obj [("candidates", .arr [.obj [("content", .obj [("parts", .arr [])])]])])
      ∧ (generate_response "m" "Hello" 100
          (fun _ _ => .response 200 (.ok (.obj [("candidates", .arr [.obj [("content", .obj [("parts", .arr [])])]])])) "")
          = .error (.gemini "No parts in response content" none)
        ∧ outwardStatus (ai_reply "m" "rid" ⟨"Hello", 100⟩
            (fun _ _ => .response 200 (.ok (.obj [("candidates", .arr [.obj [("content", .obj [("parts", .arr [])])]])])) "")) = 502))
    ∧ (EmptyTextBody (.obj [("candidates", .arr [.obj [("content", .obj [("parts", .arr [.obj [("text", .str "")]])])]])])
      ∧ (generate_response "m" "Hello" 100
          (fun _ _ => .response 200 (.ok (.obj [("candidates", .arr [.obj [("content", .obj [("parts", .arr [.obj [("text", .str "")]])])]])])) "")
          = .error (.gemini "Empty reply from Gemini" none)
        ∧ outwardStatus (ai_reply "m" "rid" ⟨"Hello", 100⟩
            (fun _ _ => .response 200 (.ok (.obj [("candidates", .arr [.obj [("content", .obj [("parts", .arr [.obj [("text", .str "")]])])]])])) "")) = 502)) :=
  ⟨⟨⟨_, rfl, rfl⟩,
    (c4_malformed_response "m" "rid" ⟨"Hello", 100⟩ ""
      (.obj [("candidates", .arr [])])).1 ⟨_, rfl, rfl⟩⟩,
   ⟨⟨_, _, _, _, rfl, rfl, rfl, rfl⟩,
    (c4_malformed_response "m" "rid" ⟨"Hello", 100⟩ ""
      (.obj [("candidates", .arr [.obj [("content", .obj [("parts", .arr [])])]])])).2.1
      ⟨_, _, _, _, rfl, rfl, rfl, rfl⟩⟩,
   ⟨⟨_, _, _, _, _, _, rfl, rfl, rfl, rfl, rfl⟩,
    (c4_malformed_response "m" "rid" ⟨"Hello", 100⟩ ""
      (.obj [("candidates", .arr [.obj [("content", .obj [("parts", .arr [.obj [("text", .str "")]])])]])])).2.2
      ⟨_, _, _, _, _, _, rfl, rfl, rfl, rfl, rfl⟩⟩⟩

/-- C6 (amended): for every non-success upstream status s, generate
fails with GeminiError carrying s verbatim; its message is the fixed
prefix "Gemini API error: " followed by the structured error message
parsed from the body when one is present, and when JSON parsing of the
body fails, followed instead by the raw body truncated to at most 200
characters — the original claim omitted the fixed prefix. -/
theorem c6_upstream_rejected (model prompt : String) (mt : Int) (s : Nat)
    (hs : s ≠ 200) (j : Except String JVal) (t : String) :
    generate_response model prompt mt (fun _ _ => .response s j t)
      = .error (.gemini ("Gemini API error: " ++ errorDetail j t) (some s))
    ∧ (∀ m, j = .error m →
        errorDetail j t = pySlice200 t ∧ (pySlice200 t).length ≤ 200)
    ∧ (∀ fields efields msg, j = .ok (.obj fields) →
        fields.lookup "error" = some (.obj efields) →
        efields.lookup "message" = some (.str msg) →
        errorDetail j t = msg) := by
  refine ⟨generate_response_nonsuccess model prompt mt s hs j t, ?_, ?_⟩
  · rintro m rfl
    refine ⟨rfl, ?_⟩
    have hlen : (pySlice200 t).length = (t.data.take 200).length := rfl
    rw [hlen]
    exact (List.length_take 200 t.data).le.trans (Nat.min_le_left _ _)
  · rintro fields efields msg rfl h1 h2
    simp [errorDetail, h1, h2, JVal.pyStr]

/-- C6 counterexample: for a 500 response whose body parses to a
structured error message "quota exceeded", the GeminiError message is
not the structured message itself — it carries the fixed prefix. -/
theorem c6_counterexample_prefix :
    generate_response "m" "Hello" 100
      (fun _ _ => .response 500
        (.ok (.obj [("error", .obj [("message", .str "quota exceeded")])])) "raw")
      = .error (.gemini "Gemini API error: quota exceeded" (some 500))
    ∧ "Gemini API error: quota exceeded" ≠ "quota exceeded" :=
  ⟨rfl, by decide⟩

/-- Witness for C6 at status 404 with a structured error body. -/
theorem c6_witness :
    (404 : Nat) ≠ 200
    ∧ generate_response "m" "Hi" 5
        (fun _ _ => .response 404
          (.ok (.obj [("error", .obj [("message", .str "model not found")])])) "raw")
      = .error (.gemini ("Gemini API error: " ++
          errorDetail (.ok (.obj [("error", .obj [("message", .str "model not found")])])) "raw")
          (some 404))
    ∧ errorDetail (.ok (.obj [("error", .obj [("message", .str "model not found")])])) "raw"
      = "model not found" :=
  ⟨by decide,
   (c6_upstream_rejected "m" "Hi" 5 404 (by decide)
     (.ok (.obj [("error", .obj [("message", .str "model not found")])])) "raw").1,
   (c6_upstream_rejected "m" "Hi" 5 404 (by decide)
     (.ok (.obj [("error", .obj [("message", .str "model not found")])])) "raw").2.2
     _ _ _ rfl rfl rfl⟩

/-- C7: for every valid PromptRequest and every well-formed success
upstream body, the handler returns a success whose reply equals the
first candidate's first content part's text and whose usage fields equal
the body's token counts when present and are unset otherwise. -/
theorem c7_success_reply_and_usage (model rid text : String) (req : AIRequest)
    (hreq : req.valid)
    (fs c0fs contentFs p0fs um : List (String × JVal)) (restC restP : List JVal)
    (s : String) (hs : s ≠ "")
    (hcand : fs.lookup "candidates" = some (.arr (.obj c0fs :: restC)))
    (hcontent : (c0fs.lookup "content").getD (.obj []) = .obj contentFs)
    (hparts : contentFs.lookup "parts" = some (.arr (.obj p0fs :: restP)))
    (htext : p0fs.lookup "text" = some (.str s))
    (hum : (fs.lookup "usageMetadata").getD (.obj []) = .obj um)
    (pt ct : Option Int)
    (hpt : (um.lookup "promptTokenCount").getD .null = jvalOfOptInt pt)
    (hct : (um.lookup "candidatesTokenCount").getD .null = jvalOfOptInt ct) :
    ai_reply model rid req (fun _ _ => .response 200 (.ok (.obj fs)) text)
      = .ok ⟨rid, s, model, ⟨pt, ct⟩⟩ := by
  have h1 : extract_reply (.obj fs) = .ok (.str s) := by
    unfold extract_reply extractReplyTry pyGet pyIndex0
    simp [hcand, hcontent, hparts, htext, JVal.truthy_arr_cons, JVal.truthy, hs]
  have h3 : generate_response model req.prompt req.max_tokens
      (fun _ _ => .response 200 (.ok (.obj fs)) text)
      = .ok ⟨.str s, model, jvalOfOptInt pt, jvalOfOptInt ct⟩ := by
    unfold generate_response generateTry pyGet
    simp [h1, hum, hpt, hct]
  unfold ai_reply aiReplyTry
  rw [h3]
  cases pt <;> cases ct <;> rfl

/-- Witness for C7: the concrete scenario from the claim — prompt
"Hello", max_tokens 100, a body whose first part text is "Hi there" and
whose usage counts are 3 and 4. -/
theorem c7_witness :
    (AIRequest.mk "Hello" 100).valid
    ∧ ai_reply "gemini-2.5-flash" "rid" ⟨"Hello", 100⟩
        (fun _ _ => .response 200 (.ok (.obj [
          ("candidates", .arr [.obj [("content", .obj [("parts",
            .arr [.obj [("text", .str "Hi there")]])])]]),
          ("usageMetadata", .obj [("promptTokenCount", .num 3),
            ("candidatesTokenCount", .num 4)])])) "")
      = .ok ⟨"rid", "Hi there", "gemini-2.5-flash", ⟨some 3, some 4⟩⟩ :=
  ⟨by decide,
   c7_success_reply_and_usage "gemini-2.5-flash" "rid" "" ⟨"Hello", 100⟩ (by decide)
     [("candidates", .arr [.obj [("content", .obj [("parts",
        .arr [.obj [("text", .str "Hi there")]])])]]),
      ("usageMetadata", .obj [("promptTokenCount", .num 3),
        ("candidatesTokenCount", .num 4)])]
     [("content", .obj [("parts", .arr [.obj [("text", .str "Hi there")]])])]
     [("parts", .arr [.obj [("text", .str "Hi there")]])]
     [("text", .str "Hi there")]
     [("promptTokenCount", .num 3), ("candidatesTokenCount", .num 4)]
     [] [] "Hi there" (by decide) rfl rfl rfl rfl rfl (some 3) (some 4) rfl rfl⟩

/-- The admission decision for a caller depends only on that caller's
own rate entry. -/
theorem rateAdmit_fst_congr (limit window now : Nat) (st1 st2 : RateState)
    (caller : String) (hagree : st1 caller = st2 caller) :
    (rateAdmit limit window now st1 caller).1
      = (rateAdmit limit window now st2 caller).1 := by
  unfold rateAdmit
  rw [hagree]
  by_cases h1 : (st2 caller).windowStart + window ≤ now <;>
    simp [h1] <;> split <;> simp

/-- The outward response and the number of upstream invocations of a
gated call depend only on the caller's own rate entry. -/
theorem handle_congr (limit window now : Nat) (st1 st2 : RateState)
    (caller model rid : String) (req : AIRequest)
    (upstream : String → Int → TransportOutcome)
    (hagree : st1 caller = st2 caller) :
    (handle limit window now st1 caller model rid req upstream).response
      = (handle limit window now st2 caller model rid req upstream).response
    ∧ (handle limit window now st1 caller model rid req upstream).upstreamCalls
      = (handle limit window now st2 caller model rid req upstream).upstreamCalls := by
  have hdec := rateAdmit_fst_congr limit window now st1 st2 caller hagree
  by_cases hb : (rateAdmit limit window now st2 caller).1 = true <;>
    simp [handle, hdec, hb]

/-- C8 (spec-modelled): with an admission limit of N per window, a
caller already counted N times in the current window is rejected at
admission with the rate-limit-exceeded outward error and zero upstream
invocations, the rate table is left unchanged at every identity, and a
call by any other caller identity in the same window is unaffected by
the rejection. -/
theorem c8_rate_limit_rejection (N window now : Nat) (st : RateState)
    (caller other model rid : String) (req : AIRequest)
    (upstream : String → Int → TransportOutcome)
    (hcount : (st caller).count = N)
    (hwin : now < (st caller).windowStart + window)
    (hother : other ≠ caller) :
    (handle N window now st caller model rid req upstream).response
      = .error ⟨429, "Rate limit exceeded"⟩
    ∧ (handle N window now st caller model rid req upstream).upstreamCalls = 0
    ∧ (∀ c, (handle N window now st caller model rid req upstream).state c = st c)
    ∧ (handle N window now
        (handle N window now st caller model rid req upstream).state
        other model rid req upstream).response
      = (handle N window now st other model rid req upstream).response
    ∧ (handle N window now
        (handle N window now st caller model rid req upstream).state
        other model rid req upstream).upstreamCalls
      = (handle N window now st other model rid req upstream).upstreamCalls := by
  have hnotel : ¬ ((st caller).windowStart + window ≤ now) := by omega
  have hadm : rateAdmit N window now st caller
      = (false, fun c => if c = caller then st caller else st c) := by
    unfold rateAdmit
    simp [hnotel, hcount]
  have hstate : ∀ c,
      (handle N window now st caller model rid req upstream).state c = st c := by
    intro c
    unfold handle
    rw [hadm]
    by_cases hc : c = caller <;> simp [hc]
  have hresp : (handle N window now st caller model rid req upstream).response
      = .error ⟨429, "Rate limit exceeded"⟩ := by
    unfold handle
    rw [hadm]
    rfl
  have hcalls : (handle N window now st caller model rid req upstream).upstreamCalls = 0 := by
    unfold handle
    rw [hadm]
    rfl
  have hcong := handle_congr N window now
    (handle N window now st caller model rid req upstream).state st
    other model rid req upstream (hstate other)
  exact ⟨hresp, hcalls, hstate, hcong.1, hcong.2⟩

/-- Witness for C8: limit 2, a caller already counted twice in the
active window, and a second caller with an empty counter. -/
theorem c8_witness :
    ((fun c => if c = "alice" then (⟨2, 0⟩ : RateEntry) else ⟨0, 0⟩) "alice").count = 2
    ∧ 10 < ((fun c => if c = "alice" then (⟨2, 0⟩ : RateEntry) else ⟨0, 0⟩) "alice").windowStart + 60
    ∧ "bob" ≠ "alice"
    ∧ (handle 2 60 10 (fun c => if c = "alice" then (⟨2, 0⟩ : RateEntry) else ⟨0, 0⟩)
        "alice" "m" "rid" ⟨"Hello", 100⟩ (fun _ _ => .timeout)).response
      = .error ⟨429, "Rate limit exceeded"⟩
    ∧ (handle 2 60 10 (fun c => if c = "alice" then (⟨2, 0⟩ : RateEntry) else ⟨0, 0⟩)
        "alice" "m" "rid" ⟨"Hello", 100⟩ (fun _ _ => .timeout)).upstreamCalls = 0
    ∧ (handle 2 60 10 (fun c => if c = "alice" then (⟨2, 0⟩ : RateEntry) else ⟨0, 0⟩)
        "alice" "m" "rid" ⟨"Hello", 100⟩ (fun _ _ => .timeout)).state "bob"
      = (fun c => if c = "alice" then (⟨2, 0⟩ : RateEntry) else ⟨0, 0⟩) "bob" :=
  ⟨rfl, by decide, by decide,
   (c8_rate_limit_rejection 2 60 10
     (fun c => if c = "alice" then (⟨2, 0⟩ : RateEntry) else ⟨0, 0⟩)
     "alice" "bob" "m" "rid" ⟨"Hello", 100⟩ (fun _ _ => .timeout)
     rfl (by decide) (by decide)).1,
   (c8_rate_limit_rejection 2 60 10
     (fun c => if c = "alice" then (⟨2, 0⟩ : RateEntry) else ⟨0, 0⟩)
     "alice" "bob" "m" "rid" ⟨"Hello", 100⟩ (fun _ _ => .timeout)
     rfl (by decide) (by decide)).2.1,
   (c8_rate_limit_rejection 2 60 10
     (fun c => if c = "alice" then (⟨2, 0⟩ : RateEntry) else ⟨0, 0⟩)
     "alice" "bob" "m" "rid" ⟨"Hello", 100⟩ (fun _ _ => .timeout)
     rfl (by decide) (by decide)).2.2.1 "bob"⟩

/-- C9: every invocation of generate produces exactly one of the two
outcomes — a populated result whose mandatory reply is non-empty
(Python-truthy), or an error classified as a GeminiError — never both
and never neither. -/
theorem c9_exactly_one_outcome (model prompt : String) (mt : Int)
    (upstream : String → Int → TransportOutcome) :
    Xor' (∃ r, generate_response model prompt mt upstream = .ok r ∧ r.reply.truthy = true)
         (∃ e, generate_response model prompt mt upstream = .error e ∧ e.isGeminiClass = true) := by
  cases hg : generate_response model prompt mt upstream with
  | ok r =>
    left
    refine ⟨⟨r, rfl, generate_response_ok_reply_truthy model prompt mt upstream r hg⟩, ?_⟩
    rintro ⟨e, he, -⟩
    exact Except.noConfusion he
  | error e =>
    right
    refine ⟨⟨e, rfl, generate_response_error_class model prompt mt upstream e hg⟩, ?_⟩
    rintro ⟨r, hr, -⟩
    exact Except.noConfusion hr

/-- C10: a success-status body whose first part lacks the text field
entirely is treated identically to one whose extracted text is the empty
string — both fail with the empty-text reason "Empty reply from Gemini",
not with a distinct missing-field error (the `.get("text", "")` default
followed by the `if not reply` guard, src/api/gemini_client.py lines
156-159). -/
theorem c10_missing_text_like_empty (fs c0fs contentFs p0fs : List (String × JVal))
    (restC restP : List JVal)
    (hcand : fs.lookup "candidates" = some (.arr (.obj c0fs :: restC)))
    (hcontent : (c0fs.lookup "content").getD (.obj []) = .obj contentFs)
    (hparts : contentFs.lookup "parts" = some (.arr (.obj p0fs :: restP))) :
    (p0fs.lookup "text" = none →
      extract_reply (.obj fs) = .error (.gemini "Empty reply from Gemini" none))
    ∧ (p0fs.lookup "text" = some (.str "") →
      extract_reply (.obj fs) = .error (.gemini "Empty reply from Gemini" none)) := by
  constructor
  · intro htext
    unfold extract_reply extractReplyTry pyGet pyIndex0
    simp [hcand, hcontent, hparts, htext, JVal.truthy_arr_cons, JVal.truthy]
  · intro htext
    unfold extract_reply extractReplyTry pyGet pyIndex0
    simp [hcand, hcontent, hparts, htext, JVal.truthy_arr_cons, JVal.truthy]

/-- Witness for C10 on a body with no text field and on one with an
explicit empty text field. -/
theorem c10_witness :
    extract_reply (.obj [("candidates", .arr [.obj [("content",
        .obj [("parts", .arr [.obj []])])]])])
      = .error (.gemini "Empty reply from Gemini" none)
    ∧ extract_reply (.obj [("candidates", .arr [.obj [("content",
        .obj [("parts", .arr [.obj [("text", .str "")]])])]])])
      = .error (.gemini "Empty reply from Gemini" none) :=
  ⟨(c10_missing_text_like_empty
      [("candidates", .arr [.obj [("content", .obj [("parts", .arr [.obj []])])]])]
      [("content", .obj [("parts", .arr [.obj []])])]
      [("parts", .arr [.obj []])]
      [] [] [] rfl rfl rfl).1 rfl,
   (c10_missing_text_like_empty
      [("candidates", .arr [.obj [("content", .obj [("parts", .arr [.obj [("text", .str "")]])])]])]
      [("content", .obj [("parts", .arr [.obj [("text", .str "")]])])]
      [("parts", .arr [.obj [("text", .str "")]])]
      [("text", .str "")] [] [] rfl rfl rfl).2 rfl⟩
